import Mathlib

/-!
Verification of the listing-draft synthesis pipeline of the eBay_Automation_tool
repository.  The definitions below are a shallow embedding of the Python code in
`src/simple_mobile_app.py` (class `ListingGenerator`) and
`src/services/vision_service.py` (`OpenAIVisionService._call_openai_vision`).

Modelling conventions:
* JSON values are modelled by `JsonVal` with exact rationals for numbers.
  Python parses JSON numbers into binary floats; all numbers appearing in the
  claims are exactly representable, so the rational model agrees with the code
  on every input considered here.  The non-standard `Infinity`/`NaN` literals
  accepted by Python's `json` module are outside the modelled value space.
* Python exceptions are modelled by `Option`: a function that can raise returns
  `none` on the raising paths; the orchestrator catches every exception with a
  single `except Exception` handler, which the embedding mirrors by mapping
  `none` to the fallback draft.
* Python `str`/`int`/`float` coercions are modelled by `pyStr`, `to_int` and
  `pyFloat` below, following the semantics of the builtins on the values a
  parsed JSON document can contain.
-/

attribute [local semireducible] Rat.add Rat.mul Rat.inv Rat.sub Rat.ofScientific

/-- Python's whitespace set for `str.strip()` (ASCII part). -/
def isPySpace (c : Char) : Bool :=
  c = ' ' ∨ c = '\t' ∨ c = '\n' ∨ c = '\r' ∨ c = '\x0b' ∨ c = '\x0c'

/-- Python `s.strip()`: remove leading and trailing whitespace. -/
def pyStrip (s : String) : String :=
  String.mk (((s.data.dropWhile isPySpace).reverse.dropWhile isPySpace).reverse)

/-- Python `s.replace(c, r)` for one-character pattern and replacement. -/
def pyReplaceChar (s : String) (c r : Char) : String :=
  String.mk (s.data.map (fun x => if x = c then r else x))

/-- Python `c in s` for a one-character needle. -/
def pyContains (s : String) (c : Char) : Bool :=
  s.data.any (fun x => x = c)

/-- A parsed JSON value (the result of Python's `json.loads`).  Numbers are
exact rationals; object fields are kept in document order and duplicate keys
are resolved by `jlookup`, which (like a Python `dict` literal) lets the last
occurrence win. -/
inductive JsonVal where
  | null : JsonVal
  | bool : Bool → JsonVal
  | num : ℚ → JsonVal
  | str : String → JsonVal
  | arr : List JsonVal → JsonVal
  | obj : List (String × JsonVal) → JsonVal

/-- The opening brace character (written via its code to keep it out of
string/character syntax). -/
def lbrace : Char := '\x7b'

/-- The closing brace character. -/
def rbrace : Char := '\x7d'

/-- Dictionary lookup on the field list of a JSON object: the last binding of
the key wins, matching the construction of a Python `dict` from parsed JSON. -/
def jlookup (fields : List (String × JsonVal)) (key : String) : Option JsonVal :=
  fields.foldl (fun acc kv => if kv.1 = key then some kv.2 else acc) none

/-- Python `data.get(key, default)` on a parsed JSON object. -/
def dict_get (fields : List (String × JsonVal)) (key : String) (default : JsonVal) : JsonVal :=
  match jlookup fields key with
  | some v => v
  | none => default

/-- Value of a decimal digit string (most significant digit first). -/
def digitsVal (ds : List Char) : ℕ :=
  ds.foldl (fun acc c => 10 * acc + (c.toNat - 48)) 0

/-- Value of `ip . fp` as an exact rational. -/
def decimalVal (ip fp : List Char) : ℚ :=
  (digitsVal ip : ℚ) + (digitsVal fp : ℚ) / (10 : ℚ) ^ fp.length

/-- Apply a decimal exponent (`eneg` = the exponent is negative). -/
def applyExp (q : ℚ) (eneg : Bool) (e : ℕ) : ℚ :=
  if eneg then q / (10 : ℚ) ^ e else q * (10 : ℚ) ^ e

/-- Hexadecimal digit value. -/
def hexVal (c : Char) : Option ℕ :=
  if c.isDigit then some (c.toNat - 48)
  else if 'a' ≤ c ∧ c ≤ 'f' then some (c.toNat - 87)
  else if 'A' ≤ c ∧ c ≤ 'F' then some (c.toNat - 55)
  else none

/-- Skip JSON whitespace (space, tab, newline, carriage return). -/
def skipWs : List Char → List Char
  | [] => []
  | c :: cs => if c = ' ' ∨ c = '\t' ∨ c = '\n' ∨ c = '\r' then skipWs cs else c :: cs

/-- Body of a JSON string literal after the opening quote, with the standard
escape sequences.  `\uXXXX` is decoded through `Char.ofNat`; surrogate-pair
combination (irrelevant to every input considered here) is not modelled. -/
def parseStringBody : List Char → List Char → Option (String × List Char)
  | _, [] => none
  | acc, '"' :: rest => some (String.mk acc.reverse, rest)
  | acc, '\\' :: esc =>
    match esc with
    | '"' :: r => parseStringBody ('"' :: acc) r
    | '\\' :: r => parseStringBody ('\\' :: acc) r
    | '/' :: r => parseStringBody ('/' :: acc) r
    | 'b' :: r => parseStringBody ('\x08' :: acc) r
    | 'f' :: r => parseStringBody ('\x0c' :: acc) r
    | 'n' :: r => parseStringBody ('\n' :: acc) r
    | 'r' :: r => parseStringBody ('\r' :: acc) r
    | 't' :: r => parseStringBody ('\t' :: acc) r
    | 'u' :: h1 :: h2 :: h3 :: h4 :: r =>
      match hexVal h1, hexVal h2, hexVal h3, hexVal h4 with
      | some a, some b, some c, some d =>
        parseStringBody (Char.ofNat (((a * 16 + b) * 16 + c) * 16 + d) :: acc) r
      | _, _, _, _ => none
    | _ => none
  | acc, c :: rest => parseStringBody (c :: acc) rest

/-- A JSON number per the strict grammar used by `json.loads`:
optional minus, `0` or a nonzero-led digit run, optional fraction, optional
exponent.  Returns the value and the remaining input. -/
def parseJsonNumber (cs : List Char) : Option (ℚ × List Char) :=
  let sgn : Bool × List Char :=
    match cs with
    | '-' :: r => (true, r)
    | r => (false, r)
  let neg := sgn.1
  let ipOpt : Option (List Char × List Char) :=
    match sgn.2 with
    | '0' :: r => some (['0'], r)
    | c :: r =>
      if c.isDigit then
        let p := r.span Char.isDigit
        some (c :: p.1, p.2)
      else none
    | [] => none
  match ipOpt with
  | none => none
  | some (ip, r1) =>
    let fracOpt : Option (List Char × List Char) :=
      match r1 with
      | '.' :: r =>
        let p := r.span Char.isDigit
        if p.1.isEmpty then none else some (p.1, p.2)
      | r => some ([], r)
    match fracOpt with
    | none => none
    | some (fp, r2) =>
      let expOpt : Option (Bool × ℕ × List Char) :=
        match r2 with
        | c :: r =>
          if c = 'e' ∨ c = 'E' then
            let es : Bool × List Char :=
              match r with
              | '+' :: rr => (false, rr)
              | '-' :: rr => (true, rr)
              | rr => (false, rr)
            let p := es.2.span Char.isDigit
            if p.1.isEmpty then none else some (es.1, digitsVal p.1, p.2)
          else some (false, 0, c :: r)
        | [] => some (false, 0, [])
      match expOpt with
      | none => none
      | some (eneg, e, rest) =>
        let v := applyExp (decimalVal ip fp) eneg e
        some ((if neg then -v else v), rest)

mutual

/-- Fuel-based JSON value parser (the recursive core of `json.loads`). -/
def parseValue : ℕ → List Char → Option (JsonVal × List Char)
  | 0, _ => none
  | fuel + 1, s =>
    match skipWs s with
    | [] => none
    | c :: cs =>
      if c = lbrace then parseMembersStart fuel cs
      else if c = '[' then parseElemsStart fuel cs
      else if c = '"' then
        match parseStringBody [] cs with
        | some (t, rest) => some (.str t, rest)
        | none => none
      else
        match c :: cs with
        | 't' :: 'r' :: 'u' :: 'e' :: rest => some (.bool true, rest)
        | 'f' :: 'a' :: 'l' :: 's' :: 'e' :: rest => some (.bool false, rest)
        | 'n' :: 'u' :: 'l' :: 'l' :: rest => some (.null, rest)
        | other =>
          match parseJsonNumber other with
          | some (q, rest) => some (.num q, rest)
          | none => none

/-- Parse the inside of an object after the opening brace. -/
def parseMembersStart : ℕ → List Char → Option (JsonVal × List Char)
  | 0, _ => none
  | fuel + 1, s =>
    match skipWs s with
    | [] => none
    | c :: rest =>
      if c = rbrace then some (.obj [], rest)
      else parseMembers fuel (c :: rest) []

/-- Parse one or more `"key": value` members separated by commas. -/
def parseMembers : ℕ → List Char → List (String × JsonVal) → Option (JsonVal × List Char)
  | 0, _, _ => none
  | fuel + 1, s, acc =>
    match skipWs s with
    | '"' :: cs =>
      match parseStringBody [] cs with
      | some (key, rest) =>
        match skipWs rest with
        | ':' :: rest2 =>
          match parseValue fuel rest2 with
          | some (v, rest3) =>
            match skipWs rest3 with
            | c :: rest4 =>
              if c = ',' then parseMembers fuel rest4 ((key, v) :: acc)
              else if c = rbrace then some (.obj ((key, v) :: acc).reverse, rest4)
              else none
            | [] => none
          | none => none
        | _ => none
      | none => none
    | _ => none

/-- Parse the inside of an array after the opening bracket. -/
def parseElemsStart : ℕ → List Char → Option (JsonVal × List Char)
  | 0, _ => none
  | fuel + 1, s =>
    match skipWs s with
    | ']' :: rest => some (.arr [], rest)
    | s1 => parseElems fuel s1 []

/-- Parse one or more array elements separated by commas. -/
def parseElems : ℕ → List Char → List JsonVal → Option (JsonVal × List Char)
  | 0, _, _ => none
  | fuel + 1, s, acc =>
    match parseValue fuel s with
    | some (v, rest) =>
      match skipWs rest with
      | ',' :: rest2 => parseElems fuel rest2 (v :: acc)
      | ']' :: rest2 => some (.arr (v :: acc).reverse, rest2)
      | _ => none
    | none => none

end

/-- Python `json.loads`: parse a complete document, allowing only trailing
whitespace.  The fuel `3 * (length + 1)` dominates the recursion depth, which
consumes at least one character for every three fuel steps. -/
def jsonParse (s : String) : Option JsonVal :=
  match parseValue (3 * (s.data.length + 1)) s.data with
  | some (v, rest) => if (skipWs rest).isEmpty then some v else none
  | none => none

/-- Index of the last occurrence of a character, if any. -/
def lastIdxOf (cs : List Char) (c : Char) : Option ℕ :=
  match cs.reverse.findIdx? (fun x => x = c) with
  | some k => some (cs.length - 1 - k)
  | none => none

/-- The regex fallback of `ListingGenerator._parse_response`
(`src/simple_mobile_app.py` line 145): `re.search` of a greedy
brace-to-brace pattern with `re.S`, i.e. the substring from the first opening
brace to the last closing brace after it, if both exist. -/
def extract_braces (s : String) : Option String :=
  match s.data.findIdx? (fun x => x = lbrace), lastIdxOf s.data rbrace with
  | some i, some j =>
    if i < j then some (String.mk ((s.data.drop i).take (j - i + 1))) else none
  | _, _ => none

/-- Python truthiness (`bool(x)`) of a parsed JSON value. -/
def truthy : JsonVal → Bool
  | .null => false
  | .bool b => b
  | .num q => q ≠ 0
  | .str s => s ≠ ""
  | .arr xs => ¬ xs.isEmpty
  | .obj fs => ¬ fs.isEmpty

/-- Python `str(x)` of a parsed JSON value.  For strings this is the identity,
which is the only case the claims exercise; the renderings of the other cases
are placeholders for Python's `repr`-style output (no claim inspects them, and
every non-string rendering is a non-empty string, as in Python). -/
def pyStr : JsonVal → String
  | .null => "None"
  | .bool b => if b then "True" else "False"
  | .str s => s
  | .num q => toString q.num ++ (if q.den = 1 then "" else "/" ++ toString q.den)
  | .arr _ => "<list>"
  | .obj _ => "<dict>"

/-- Python `float(string)`: strip whitespace, optional sign, digits with
optional fraction and exponent.  `inf`/`nan` spellings and digit-group
underscores are outside the modelled value space. -/
def pyFloatOfString (s : String) : Option ℚ :=
  let cs := (pyStrip s).data
  let sgn : Bool × List Char :=
    match cs with
    | '+' :: r => (false, r)
    | '-' :: r => (true, r)
    | r => (false, r)
  let ipp := sgn.2.span Char.isDigit
  let frac : Option (List Char × List Char) :=
    match ipp.2 with
    | '.' :: r =>
      let p := r.span Char.isDigit
      some (p.1, p.2)
    | r => some ([], r)
  match frac with
  | none => none
  | some (fp, r2) =>
    if ipp.1.isEmpty ∧ fp.isEmpty then none
    else
      match r2 with
      | [] => some (if sgn.1 then -decimalVal ipp.1 fp else decimalVal ipp.1 fp)
      | e :: r3 =>
        if e = 'e' ∨ e = 'E' then
          let es : Bool × List Char :=
            match r3 with
            | '+' :: rr => (false, rr)
            | '-' :: rr => (true, rr)
            | rr => (false, rr)
          let p := es.2.span Char.isDigit
          if p.1.isEmpty ∨ ¬ p.2.isEmpty then none
          else
            let v := applyExp (decimalVal ipp.1 fp) es.1 (digitsVal p.1)
            some (if sgn.1 then -v else v)
        else none

/-- Python `float(x)` on a parsed JSON value: numbers pass through, booleans
become 0/1 (`bool` is an `int` subclass), strings are parsed, and every other
value raises (`none`). -/
def pyFloat : JsonVal → Option ℚ
  | .num q => some q
  | .bool b => some (if b then 1 else 0)
  | .str s => pyFloatOfString s
  | _ => none

/-- Python `int(q)`: truncation toward zero. -/
def ratTrunc (q : ℚ) : ℤ :=
  if q < 0 then ⌈q⌉ else ⌊q⌋

/-- Python string slice `s[:n]` (by code point). -/
def pyTake (s : String) (n : ℕ) : String := String.mk (s.data.take n)

/-- Split a character list at the first occurrence of `c`:
`(before, after)`; if `c` does not occur the whole list is `before`. -/
def splitFirstList (c : Char) : List Char → List Char × List Char
  | [] => ([], [])
  | x :: xs =>
    if x = c then ([], xs)
    else
      let p := splitFirstList c xs
      (x :: p.1, p.2)

/-- Python `s.split(sep, 1)` restricted to a one-character separator that is
known to occur: the parts before and after its first occurrence. -/
def splitFirst (s : String) (c : Char) : String × String :=
  let p := splitFirstList c s.data
  (String.mk p.1, String.mk p.2)

/-- Python `s.rsplit(".", 1)[0]`: everything before the last dot, or the whole
string when there is no dot. -/
def rsplitDot (s : String) : String :=
  if pyContains s '.' then String.mk (splitFirstList '.' s.data.reverse).2.reverse
  else s

/-- `ProductInfo` from `src/simple_mobile_app.py` lines 32–38. -/
structure ProductInfo where
  name : String
  category : String
  condition : String
  brand : Option String
  features : List String
deriving DecidableEq

/-- `ListingDraft` from `src/simple_mobile_app.py` lines 40–51.  Monetary
fields are integers in minor units (cents); `confidence_score` is modelled as
an exact rational. -/
structure ListingDraft where
  product : ProductInfo
  estimated_value_range : ℤ × ℤ
  suggested_keywords : List String
  condition_details : String
  confidence_score : ℚ
  listing_title : String
  listing_description : String
  recommended_price : ℤ
  shipping_suggestion : String
  source : String
deriving DecidableEq

namespace ListingGenerator

/-- The nested helper `to_int` of `_build_result`
(`src/simple_mobile_app.py` lines 151–155): `int(float(value))` with
`TypeError`/`ValueError` mapped to the default. -/
def to_int (value : JsonVal) (default : ℤ) : ℤ :=
  match pyFloat value with
  | some q => ratTrunc q
  | none => default

/-- The nested helper `to_str_list` of `_build_result` (lines 157–160):
stringify the elements of a list, strip them, drop empty results; any
non-list value yields the empty list. -/
def to_str_list (value : JsonVal) : List String :=
  match value with
  | .arr xs => (xs.map (fun item => pyStrip (pyStr item))).filter (fun s => s ≠ "")
  | _ => []

/-- The raw `(min_val, max_val)` extraction of `_build_result`
(lines 162–175), before the clamps: a dict is read through `min`/`max`, a
string is split at its first hyphen or coerced whole, a number (or boolean,
since `bool` is an `int` subclass) is used for both bounds, and anything else
leaves `(0, 0)`. -/
def value_range_raw (price_range : JsonVal) : ℤ × ℤ :=
  match price_range with
  | .obj fs =>
    let m := to_int (dict_get fs "min" .null) 0
    (m, to_int (dict_get fs "max" .null) m)
  | .str s =>
    if pyContains s '-' then
      let p := splitFirst s '-'
      let m := to_int (.str p.1) 0
      (m, to_int (.str p.2) m)
    else
      let m := to_int (.str s) 0
      (m, m)
  | .num q =>
    let m := to_int (.num q) 0
    (m, m)
  | .bool b =>
    let m := to_int (.bool b) 0
    (m, m)
  | _ => (0, 0)

/-- The clamps of `_build_result` lines 177–180: a non-positive lower bound
becomes 20, and the upper bound is raised to the lower bound if below it. -/
def clamp_range (p : ℤ × ℤ) : ℤ × ℤ :=
  let m := if p.1 ≤ 0 then 20 else p.1
  (m, if p.2 < m then m else p.2)

/-- The complete `(min_val, max_val)` computation of `_build_result`
(lines 162–180), in major units. -/
def value_range (price_range : JsonVal) : ℤ × ℤ :=
  clamp_range (value_range_raw price_range)

/-- Python `int((m + M) / 2)`: true division followed by truncation
(line 184). -/
def pymid (m M : ℤ) : ℤ :=
  ratTrunc (((m : ℚ) + (M : ℚ)) / 2)

/-- Python `str(x or default)` for a string default: the stringified value if
truthy, otherwise the default (used for every defaulted string field of
`_build_result`). -/
def pyOrStr (v : JsonVal) (default : String) : String :=
  if truthy v then pyStr v else default

/-- `float(data.get("confidence_score") or 0.6)` (line 208): `none` models the
`ValueError`/`TypeError` that `float` raises on a truthy non-numeric value,
which aborts `_build_result` and is caught by `analyze_product_image`. -/
def confidence_value (fs : List (String × JsonVal)) : Option ℚ :=
  let v := dict_get fs "confidence_score" .null
  if truthy v then pyFloat v else some (3 / 5)

/-- `ListingGenerator._build_result` (lines 150–214).  `none` models an
exception escaping the method (non-dict `data`, or an unconvertible truthy
`confidence_score`). -/
def build_result (data : JsonVal) (source : String) : Option ListingDraft :=
  match data with
  | .obj fs =>
    let r := value_range (dict_get fs "estimated_value_eur" (.obj []))
    let min_val := r.1
    let max_val := r.2
    let rp := to_int (dict_get fs "price_recommendation_eur" .null) 0
    let recommended_price := if rp ≤ 0 then pymid min_val max_val else rp
    let product : ProductInfo :=
      { name := pyOrStr (dict_get fs "product_name" .null) "Unbekanntes Produkt"
        category := pyOrStr (dict_get fs "category" .null) "Sonstiges"
        condition := pyOrStr (dict_get fs "condition" .null) "Gebraucht"
        brand :=
          let b := pyOrStr (dict_get fs "brand" .null) ""
          if b = "" then none else some b
        features := to_str_list (dict_get fs "features" .null) }
    let listing_title := pyStrip (pyOrStr (dict_get fs "listing_title" .null) product.name)
    let desc0 := pyStrip (pyOrStr (dict_get fs "listing_description" .null) "")
    let listing_description :=
      if desc0 = "" then
        product.name ++ " in " ++ product.condition ++ "em Zustand.\n- Kategorie: " ++
          product.category ++ "\n- Versand nach Absprache\n"
      else desc0
    match confidence_value fs with
    | none => none
    | some conf =>
      some
        { product := product
          estimated_value_range := (min_val * 100, max_val * 100)
          suggested_keywords := to_str_list (dict_get fs "suggested_keywords" .null)
          condition_details := pyOrStr (dict_get fs "condition_details" .null) ""
          confidence_score := conf
          listing_title := pyTake listing_title 80
          listing_description := listing_description
          recommended_price := recommended_price * 100
          shipping_suggestion :=
            pyOrStr (dict_get fs "shipping_suggestion" .null) "Versand nach Absprache"
          source := source }
  | _ => none

/-- The product-name derivation of `_mock_result` (lines 217–219): for a
truthy filename, drop the extension, replace underscores by spaces and strip;
an empty result (or no filename) yields the placeholder. -/
def mock_product_name (filename : Option String) : String :=
  match filename with
  | some f =>
    if f = "" then "Produkt"
    else
      let n := pyStrip (pyReplaceChar (rsplitDot f) '_' ' ')
      if n = "" then "Produkt" else n
  | none => "Produkt"

/-- `ListingGenerator._mock_result` (lines 216–245): the deterministic
fallback draft. -/
def mock_result (filename : Option String) (note : String) : ListingDraft :=
  let product : ProductInfo :=
    { name := mock_product_name filename
      category := "Sonstiges"
      condition := "Gebraucht"
      brand := none
      features := ["Funktionsfaehig", "Gepflegt", "Sofort einsatzbereit"] }
  { product := product
    estimated_value_range := (20 * 100, 35 * 100)
    suggested_keywords := ["gebraucht", "top zustand", "schneller versand"]
    condition_details := note
    confidence_score := 2 / 5
    listing_title := pyTake (pyStrip (product.name ++ " - " ++ product.condition)) 80
    listing_description :=
      product.name ++ " in " ++ product.condition ++
        "em Zustand.\n- Lieferung wie abgebildet\n- Privatverkauf, keine Garantie\n"
    recommended_price := ratTrunc ((((20 : ℚ) + 35) / 2) * 100)
    shipping_suggestion := "DHL Paket oder Abholung"
    source := "mock" }

/-- Extraction of `response["choices"][0]["message"]["content"]`
(`_parse_response`, lines 136–140).  Every shape mismatch raises a
`KeyError`/`IndexError`/`TypeError` in Python, which `_parse_response` turns
into a `ValueError`; all of these are modelled by `none`. -/
def extract_content (response : JsonVal) : Option JsonVal :=
  match response with
  | .obj fs =>
    match jlookup fs "choices" with
    | some (.arr (c :: _)) =>
      match c with
      | .obj cf =>
        match jlookup cf "message" with
        | some (.obj mf) => jlookup mf "content"
        | _ => none
      | _ => none
    | _ => none
  | _ => none

/-- `ListingGenerator._parse_response` (lines 136–148): strict JSON parse of
the message content, falling back to the greedy brace-to-brace substring.
`none` covers every raising path (missing/odd response shape, non-string
content, no JSON object found, substring that still fails to parse) — all of
them are caught by the same handler in `analyze_product_image`. -/
def parse_response (response : JsonVal) : Option JsonVal :=
  match extract_content response with
  | some (.str content) =>
    match jsonParse content with
    | some v => some v
    | none =>
      match extract_braces content with
      | some sub => jsonParse sub
      | none => none
  | _ => none

/-- Outcome of the awaited HTTP call inside `analyze_product_image`:
either some exception (network failure, non-200 status raised as `ValueError`
by `_call_openai_vision`, bad body) or a parsed 200-response body. -/
inductive CallOutcome where
  | failed : CallOutcome
  | ok : JsonVal → CallOutcome

/-- `bool(self.api_key)` as used by `is_live` and `analyze_product_image`
(lines 59–63): an absent or empty key is falsy. -/
def key_present (api_key : Option String) : Bool :=
  match api_key with
  | none => false
  | some s => s ≠ ""

/-- `ListingGenerator.analyze_product_image` (lines 62–73): without a key the
demo-mode fallback is returned; otherwise the live path runs and *any*
exception (failed call, unparsable response, coercion error) is caught by the
single `except Exception` handler, which returns the fallback with the fixed
generic note.  The image bytes influence the result only through the network
call, which is abstracted by `outcome`. -/
def analyze_product_image (api_key : Option String) (image_data : List ℕ)
    (filename : Option String) (outcome : CallOutcome) : ListingDraft :=
  if ¬ key_present api_key then
    mock_result filename "Demo-Modus aktiv (kein OPENAI_API_KEY)."
  else
    match outcome with
    | .failed => mock_result filename "OpenAI nicht erreichbar. Demo-Daten generiert."
    | .ok resp =>
      match parse_response resp with
      | none => mock_result filename "OpenAI nicht erreichbar. Demo-Daten generiert."
      | some data =>
        match build_result data "openai" with
        | none => mock_result filename "OpenAI nicht erreichbar. Demo-Daten generiert."
        | some draft => draft

end ListingGenerator

/-! ### General lemmas about the embedded operations -/

theorem pyTake_length_le (s : String) (n : ℕ) : (pyTake s n).length ≤ n := by
  show (s.data.take n).length ≤ n
  simp [List.length_take]

namespace ListingGenerator

theorem clamp_range_pos (p : ℤ × ℤ) :
    0 < (clamp_range p).1 ∧ (clamp_range p).1 ≤ (clamp_range p).2 := by
  unfold clamp_range
  dsimp only
  split_ifs <;> omega

theorem value_range_pos (v : JsonVal) :
    0 < (value_range v).1 ∧ (value_range v).1 ≤ (value_range v).2 :=
  clamp_range_pos (value_range_raw v)

theorem pymid_mem (m M : ℤ) (hm : 0 < m) (hmM : m ≤ M) :
    m ≤ pymid m M ∧ pymid m M ≤ M := by
  have hq : (0 : ℚ) ≤ ((m : ℚ) + M) / 2 := by
    have h1 : (1 : ℚ) ≤ (m : ℚ) := by exact_mod_cast hm
    have h2 : (m : ℚ) ≤ (M : ℚ) := by exact_mod_cast hmM
    linarith
  unfold pymid ratTrunc
  rw [if_neg (not_lt.mpr hq)]
  constructor
  · rw [Int.le_floor]
    have h2 : (m : ℚ) ≤ (M : ℚ) := by exact_mod_cast hmM
    linarith
  · have hup : ((m : ℚ) + M) / 2 ≤ (M : ℚ) := by
      have h1 : (1 : ℚ) ≤ (m : ℚ) := by exact_mod_cast hm
      have h2 : (m : ℚ) ≤ (M : ℚ) := by exact_mod_cast hmM
      linarith
    have : (⌊((m : ℚ) + M) / 2⌋ : ℚ) ≤ (M : ℚ) := le_trans (Int.floor_le _) hup
    exact_mod_cast this

/-! ### Field lemmas for the fallback draft -/

theorem mock_result_source (f : Option String) (note : String) :
    (mock_result f note).source = "mock" := rfl

theorem mock_result_details (f : Option String) (note : String) :
    (mock_result f note).condition_details = note := rfl

theorem mock_result_name (f : Option String) (note : String) :
    (mock_result f note).product.name = mock_product_name f := rfl

theorem mock_result_range (f : Option String) (note : String) :
    (mock_result f note).estimated_value_range = (2000, 3500) := rfl

theorem mock_result_price (f : Option String) (note : String) :
    (mock_result f note).recommended_price = 2750 := rfl

theorem mock_result_confidence (f : Option String) (note : String) :
    (mock_result f note).confidence_score = 2 / 5 := rfl

theorem mock_result_title_le (f : Option String) (note : String) :
    (mock_result f note).listing_title.length ≤ 80 :=
  pyTake_length_le _ _

end ListingGenerator

/-! ### Field lemmas for the live coercion path -/

namespace ListingGenerator

theorem build_result_range (data : JsonVal) (src : String) (d : ListingDraft)
    (h : build_result data src = some d) :
    0 < d.estimated_value_range.1 ∧ d.estimated_value_range.1 ≤ d.estimated_value_range.2 := by
  rcases data with _ | b | q | s | xs | fs
  · simp [build_result] at h
  · simp [build_result] at h
  · simp [build_result] at h
  · simp [build_result] at h
  · simp [build_result] at h
  · rcases hc : confidence_value fs with _ | conf
    · rw [build_result] at h
      simp only [hc] at h
      exact Option.noConfusion h
    · rw [build_result] at h
      simp only [hc, Option.some.injEq] at h
      subst h
      obtain ⟨h1, h2⟩ := value_range_pos (dict_get fs "estimated_value_eur" (.obj []))
      dsimp only
      omega

theorem build_result_title (data : JsonVal) (src : String) (d : ListingDraft)
    (h : build_result data src = some d) :
    d.listing_title.length ≤ 80 := by
  rcases data with _ | b | q | s | xs | fs
  · simp [build_result] at h
  · simp [build_result] at h
  · simp [build_result] at h
  · simp [build_result] at h
  · simp [build_result] at h
  · rcases hc : confidence_value fs with _ | conf
    · rw [build_result] at h
      simp only [hc] at h
      exact Option.noConfusion h
    · rw [build_result] at h
      simp only [hc, Option.some.injEq] at h
      subst h
      exact pyTake_length_le _ _

theorem build_result_price_default (fs : List (String × JsonVal)) (src : String) (d : ListingDraft)
    (h : build_result (.obj fs) src = some d)
    (hrp : to_int (dict_get fs "price_recommendation_eur" .null) 0 ≤ 0) :
    d.estimated_value_range.1 ≤ d.recommended_price ∧
      d.recommended_price ≤ d.estimated_value_range.2 := by
  rcases hc : confidence_value fs with _ | conf
  · rw [build_result] at h
    simp only [hc] at h
    exact Option.noConfusion h
  · rw [build_result] at h
    simp only [hc, Option.some.injEq] at h
    subst h
    obtain ⟨h1, h2⟩ := value_range_pos (dict_get fs "estimated_value_eur" (.obj []))
    obtain ⟨hm1, hm2⟩ := pymid_mem _ _ h1 h2
    dsimp only
    rw [if_pos hrp]
    omega

/-- The confidence score of a parsed model payload: what `_build_result` line
208 computes, or `none` on the raising paths. -/
def confidence_of (data : JsonVal) : Option ℚ :=
  match data with
  | .obj fs => confidence_value fs
  | _ => none

theorem build_result_confidence (data : JsonVal) (src : String) :
    (build_result data src).map (fun d => d.confidence_score) = confidence_of data := by
  rcases data with _ | b | q | s | xs | fs
  · simp [build_result, confidence_of]
  · simp [build_result, confidence_of]
  · simp [build_result, confidence_of]
  · simp [build_result, confidence_of]
  · simp [build_result, confidence_of]
  · rcases hc : confidence_value fs with _ | conf
    · rw [build_result, confidence_of]
      simp only [hc]
      rfl
    · rw [build_result, confidence_of]
      simp only [hc]
      rfl

end ListingGenerator

namespace ListingGenerator

theorem analyze_result_cases (api_key : Option String) (img : List ℕ)
    (f : Option String) (o : CallOutcome) :
    (∃ note, analyze_product_image api_key img f o = mock_result f note) ∨
    (∃ data d, build_result data "openai" = some d ∧
      analyze_product_image api_key img f o = d) := by
  unfold analyze_product_image
  split
  · exact Or.inl ⟨_, rfl⟩
  · cases o with
    | failed => exact Or.inl ⟨_, rfl⟩
    | ok resp =>
      dsimp only
      rcases hp : parse_response resp with _ | data
      · simp only [hp]
        exact Or.inl ⟨_, rfl⟩
      · simp only [hp]
        rcases hb : build_result data "openai" with _ | d
        · simp only [hb]
          exact Or.inl ⟨_, rfl⟩
        · simp only [hb]
          exact Or.inr ⟨data, d, hb, rfl⟩

/-- Whether the model payload behind a call outcome overrides the recommended
price: the condition of line 183 (`recommended_price <= 0`) fails, i.e. the
parsed payload carries a `price_recommendation_eur` that coerces to a positive
integer. -/
def model_price_override (o : CallOutcome) : Bool :=
  match o with
  | .failed => false
  | .ok resp =>
    match parse_response resp with
    | none => false
    | some data =>
      match data with
      | .obj fs => 0 < to_int (dict_get fs "price_recommendation_eur" .null) 0
      | _ => false

end ListingGenerator

/-! ### The vision-service model client and its retry loop -/

namespace VisionService

/-- Outcome of one attempt of the retry loop in
`OpenAIVisionService._call_openai_vision` (`src/services/vision_service.py`
lines 169–196): a 200 response with a parsed JSON body, a 429 rate-limit
response, any other HTTP status (with its body text), or an exception raised
while performing the attempt. -/
inductive AttemptOutcome where
  | success : JsonVal → AttemptOutcome
  | rateLimited : AttemptOutcome
  | httpError : ℕ → String → AttemptOutcome
  | exn : AttemptOutcome

/-- What the awaited call produces for its caller: a returned body, the
implicit `None` when the `for` loop ends without returning, or a propagated
exception. -/
inductive VisionCallResult where
  | ok : JsonVal → VisionCallResult
  | returnedNone : VisionCallResult
  | raised : VisionCallResult

/-- Whether an attempt ended in a completed HTTP error response
(429 or any other non-200 status). -/
def AttemptOutcome.isHttpFailure : AttemptOutcome → Bool
  | .rateLimited => true
  | .httpError _ _ => true
  | _ => false

/-- Body of `for attempt in range(3)` (lines 169–196): `remaining` iterations
are left and `i` is the current value of `attempt`; the second component of
the result counts the attempts actually performed.  A 200 response returns
its body; a 429 sleeps `2 ** attempt` seconds and continues; any other status
only logs the error text and therefore *also* continues; an exception is
re-raised when `attempt == 2` and otherwise sleeps 1 second and continues.
Falling off the loop returns Python's implicit `None`. -/
def vision_call_go (env : ℕ → AttemptOutcome) : ℕ → ℕ → VisionCallResult × ℕ
  | 0, i => (.returnedNone, i)
  | remaining + 1, i =>
    match env i with
    | .success r => (.ok r, i + 1)
    | .rateLimited => vision_call_go env remaining (i + 1)
    | .httpError _ _ => vision_call_go env remaining (i + 1)
    | .exn => if i = 2 then (.raised, i + 1) else vision_call_go env remaining (i + 1)

/-- `OpenAIVisionService._call_openai_vision`, with `env i` the outcome of
attempt `i`. -/
def vision_call (env : ℕ → AttemptOutcome) : VisionCallResult × ℕ :=
  vision_call_go env 3 0

theorem vision_call_go_count (env : ℕ → AttemptOutcome) :
    ∀ n i, (vision_call_go env n i).2 ≤ i + n := by
  intro n
  induction n with
  | zero => intro i; simp [vision_call_go]
  | succ m ih =>
    intro i
    unfold vision_call_go
    cases env i with
    | success r => simp
    | rateLimited => exact le_trans (ih (i + 1)) (by omega)
    | httpError s b => exact le_trans (ih (i + 1)) (by omega)
    | exn =>
      dsimp only
      split
      · simp
      · exact le_trans (ih (i + 1)) (by omega)

theorem isHttpFailure_cases (o : AttemptOutcome) (h : o.isHttpFailure = true) :
    o = .rateLimited ∨ ∃ s b, o = .httpError s b := by
  cases o with
  | success r => simp [AttemptOutcome.isHttpFailure] at h
  | rateLimited => exact Or.inl rfl
  | httpError s b => exact Or.inr ⟨s, b, rfl⟩
  | exn => simp [AttemptOutcome.isHttpFailure] at h

end VisionService

namespace ListingGenerator

/-- Result of the single-shot client `ListingGenerator._call_openai_vision`
(`src/simple_mobile_app.py` lines 124–134). -/
inductive SimpleCallResult where
  | ok : JsonVal → SimpleCallResult
  | error : String → SimpleCallResult

/-- `ListingGenerator._call_openai_vision` after the HTTP response arrives
with the given status, body text and parsed body: any non-200 status raises
`ValueError(f"OpenAI API error {status}: {error_text}")` at once (no retry);
a 200 returns the parsed JSON body. -/
def call_openai_vision (status : ℕ) (body_text : String) (body_json : JsonVal) :
    SimpleCallResult :=
  if status ≠ 200 then .error ("OpenAI API error " ++ toString status ++ ": " ++ body_text)
  else .ok body_json

end ListingGenerator

/-! ### Concrete inputs used in the claims -/

open ListingGenerator VisionService

/-- Model message content carrying a positive `price_recommendation_eur`
far above the estimated value range. -/
def c1_content : String :=
  "\x7b\"estimated_value_eur\": \x7b\"min\": 20, \"max\": 35\x7d, \"price_recommendation_eur\": 100\x7d"

/-- A well-formed chat-completion body whose message content is `c1_content`. -/
def c1_response : JsonVal :=
  .obj [("choices", .arr [.obj [("message", .obj [("content", .str c1_content)])]])]

/-- Parsed payload with a model-supplied price recommendation of 100 € against
a 20–35 € range. -/
def c2_data : JsonVal :=
  .obj [("estimated_value_eur", .obj [("min", .num 20), ("max", .num 35)]),
        ("price_recommendation_eur", .num 100)]

/-- The payload of property P4: `min` as a numeric string, `max` as a float,
`price_recommendation_eur` null. -/
def c3_data : JsonVal :=
  .obj [("estimated_value_eur", .obj [("min", .str "20"), ("max", .num 35)]),
        ("price_recommendation_eur", .null)]

/-- A chat-completion body whose message content is plain prose with no JSON
object in it. -/
def c5_response : JsonVal :=
  .obj [("choices", .arr [.obj [("message",
    .obj [("content", .str "I cannot analyze this image.")])]])]

/-- The payload of property P5: the value range as a hyphenated string. -/
def c7_data : JsonVal := .obj [("estimated_value_eur", .str "15-25")]

/-- Payload carrying an out-of-range model confidence. -/
def c9_data : JsonVal := .obj [("confidence_score", .num 5)]

/-- Conversion of a major-unit pair to minor units (the `* 100` of
`_build_result` lines 205 and 211). -/
def minor_units (p : ℤ × ℤ) : ℤ × ℤ := (p.1 * 100, p.2 * 100)

/-! ### The claims -/

/-- Claim C1, amended.  The draft pipeline is total: `analyze_product_image`
is a function — every exception path inside the live branch is caught and
yields the fallback draft — and every draft it returns satisfies the range
part of P1 (`0 < low ≤ high`) and the title bound P2.  The original claim
also demanded the recommended-price part of P1
(`low ≤ recommended_price ≤ high`), which the code does not guarantee when
the model supplies a positive out-of-range `price_recommendation_eur`
(see `analyze_p1_price_violation`). -/
theorem analyze_total_invariants (api_key : Option String) (img : List ℕ)
    (f : Option String) (o : CallOutcome) :
    0 < (analyze_product_image api_key img f o).estimated_value_range.1 ∧
      (analyze_product_image api_key img f o).estimated_value_range.1 ≤
        (analyze_product_image api_key img f o).estimated_value_range.2 ∧
      (analyze_product_image api_key img f o).listing_title.length ≤ 80 := by
  rcases analyze_result_cases api_key img f o with ⟨note, hm⟩ | ⟨data, d, hb, he⟩
  · rw [hm, mock_result_range f note]
    exact ⟨by norm_num, by norm_num, mock_result_title_le f note⟩
  · rw [he]
    obtain ⟨h1, h2⟩ := build_result_range data "openai" d hb
    exact ⟨h1, h2, build_result_title data "openai" d hb⟩

/-- Counterexample to claim C1 as stated: with credentials present and a model
response whose content recommends 100 € against a 20–35 € range, the pipeline
returns a live draft whose `recommended_price` (10000 cents) lies outside
`estimated_value_range = (2000, 3500)`, so the produced draft violates P1. -/
theorem analyze_p1_price_violation :
    (analyze_product_image (some "sk-test") [7] (some "photo.jpg") (.ok c1_response)).source =
        "openai" ∧
      (analyze_product_image (some "sk-test") [7] (some "photo.jpg")
            (.ok c1_response)).estimated_value_range = (2000, 3500) ∧
      (analyze_product_image (some "sk-test") [7] (some "photo.jpg")
            (.ok c1_response)).recommended_price = 10000 ∧
      ¬ ((analyze_product_image (some "sk-test") [7] (some "photo.jpg")
              (.ok c1_response)).estimated_value_range.1 ≤
            (analyze_product_image (some "sk-test") [7] (some "photo.jpg")
              (.ok c1_response)).recommended_price ∧
          (analyze_product_image (some "sk-test") [7] (some "photo.jpg")
              (.ok c1_response)).recommended_price ≤
            (analyze_product_image (some "sk-test") [7] (some "photo.jpg")
              (.ok c1_response)).estimated_value_range.2) :=
  ⟨by decide, by decide, by decide, by decide⟩

/-- Claim C2, amended.  Every produced draft (live or fallback) satisfies
`0 < estimated_value_range.low ≤ estimated_value_range.high`, and
`low ≤ recommended_price ≤ high` holds whenever the model does *not* override
the price with a positive `price_recommendation_eur` — the fallback and the
midpoint default always land in range, but a model-supplied positive value is
converted to cents without being clamped into the range. -/
theorem range_invariant_with_default_price (api_key : Option String) (img : List ℕ)
    (f : Option String) (o : CallOutcome) :
    (0 < (analyze_product_image api_key img f o).estimated_value_range.1 ∧
      (analyze_product_image api_key img f o).estimated_value_range.1 ≤
        (analyze_product_image api_key img f o).estimated_value_range.2) ∧
    (model_price_override o = false →
      (analyze_product_image api_key img f o).estimated_value_range.1 ≤
          (analyze_product_image api_key img f o).recommended_price ∧
        (analyze_product_image api_key img f o).recommended_price ≤
          (analyze_product_image api_key img f o).estimated_value_range.2) := by
  unfold analyze_product_image
  split
  · rw [mock_result_range, mock_result_price]
    exact ⟨by norm_num, fun _ => by norm_num⟩
  · cases o with
    | failed =>
      rw [mock_result_range, mock_result_price]
      exact ⟨by norm_num, fun _ => by norm_num⟩
    | ok resp =>
      dsimp only
      rcases hp : parse_response resp with _ | data
      · simp only [hp]
        rw [mock_result_range, mock_result_price]
        exact ⟨by norm_num, fun _ => by norm_num⟩
      · simp only [hp]
        rcases hb : build_result data "openai" with _ | d
        · simp only [hb]
          rw [mock_result_range, mock_result_price]
          exact ⟨by norm_num, fun _ => by norm_num⟩
        · simp only [hb]
          refine ⟨build_result_range data "openai" d hb, fun hov => ?_⟩
          unfold model_price_override at hov
          dsimp only at hov
          simp only [hp] at hov
          rcases data with _ | b | q | s | xs | fs
          · simp [build_result] at hb
          · simp [build_result] at hb
          · simp [build_result] at hb
          · simp [build_result] at hb
          · simp [build_result] at hb
          · simp only [decide_eq_false_iff_not, not_lt] at hov
            exact build_result_price_default fs "openai" d hb hov

/-- Witness for `range_invariant_with_default_price`: the upstream-failure
outcome has no model price override, and the resulting (fallback) draft has
its recommended price inside the range. -/
theorem range_invariant_with_default_price_witness :
    model_price_override CallOutcome.failed = false ∧
      (0 < (analyze_product_image (some "sk-test") [] (some "photo.jpg")
              CallOutcome.failed).estimated_value_range.1 ∧
        (analyze_product_image (some "sk-test") [] (some "photo.jpg")
              CallOutcome.failed).estimated_value_range.1 ≤
          (analyze_product_image (some "sk-test") [] (some "photo.jpg")
              CallOutcome.failed).estimated_value_range.2) ∧
      ((analyze_product_image (some "sk-test") [] (some "photo.jpg")
              CallOutcome.failed).estimated_value_range.1 ≤
          (analyze_product_image (some "sk-test") [] (some "photo.jpg")
              CallOutcome.failed).recommended_price ∧
        (analyze_product_image (some "sk-test") [] (some "photo.jpg")
              CallOutcome.failed).recommended_price ≤
          (analyze_product_image (some "sk-test") [] (some "photo.jpg")
              CallOutcome.failed).estimated_value_range.2) :=
  ⟨rfl,
    (range_invariant_with_default_price (some "sk-test") [] (some "photo.jpg")
        CallOutcome.failed).1,
    (range_invariant_with_default_price (some "sk-test") [] (some "photo.jpg")
        CallOutcome.failed).2 rfl⟩

/-- Counterexample to claim C2 as stated: when the model supplies
`price_recommendation_eur = 100` against a 20–35 € range, the coerced draft
has `recommended_price = 10000` cents, outside `(2000, 3500)`. -/
theorem model_price_override_out_of_range :
    (build_result c2_data "openai").map
        (fun d => (d.estimated_value_range, d.recommended_price)) =
      some ((2000, 3500), 10000) ∧
      ¬ ((2000 : ℤ) ≤ 10000 ∧ (10000 : ℤ) ≤ 3500) :=
  ⟨by decide, by decide⟩

/-- Claim C3, amended.  On the payload
`estimated_value_eur = (min: "20", max: 35.0)`, `price_recommendation_eur` null,
the coerced draft has `estimated_value_range = (2000, 3500)` as claimed, but
`recommended_price = 2700`, not 2750: the default is `int((20 + 35) / 2) = 27`
euros computed *before* the conversion to cents, not the minor-unit midpoint. -/
theorem alternate_encoding_midpoint_truncated :
    (build_result c3_data "openai").map
        (fun d => (d.estimated_value_range, d.recommended_price)) =
      some ((2000, 3500), 2700) := by
  decide

/-- Counterexample to claim C3 as stated: the recommended price on that
payload is 2700 cents, which is not the claimed midpoint 2750. -/
theorem midpoint_is_2700_not_2750 :
    (build_result c3_data "openai").map
        (fun d => (d.estimated_value_range, d.recommended_price)) =
      some ((2000, 3500), 2700) ∧ ((2700 : ℤ) ≠ 2750) :=
  ⟨by decide, by decide⟩

/-- Claim C4, amended.  The vision-service client performs at most 3 total
attempts; on a 429 it sleeps with exponential backoff and retries; on any
*other* non-2xx response it also retries (it does not fail immediately); and
when every attempt ends in an HTTP error response the call returns Python's
`None` — a non-error value — instead of raising an error carrying the status
and body.  Only the single-shot client of the mobile app
(`ListingGenerator._call_openai_vision`) raises a `ValueError` carrying the
HTTP status and response body, and it does so immediately, without any retry
(including on 429). -/
theorem vision_retry_amended (env : ℕ → AttemptOutcome) (r : JsonVal) :
    (vision_call env).2 ≤ 3 ∧
    (env 0 = .rateLimited → env 1 = .success r → vision_call env = (.ok r, 2)) ∧
    ((env 0).isHttpFailure = true → (env 1).isHttpFailure = true →
      (env 2).isHttpFailure = true → vision_call env = (.returnedNone, 3)) ∧
    (∀ status body_text body_json, status ≠ 200 →
      call_openai_vision status body_text body_json =
        .error ("OpenAI API error " ++ toString status ++ ": " ++ body_text)) := by
  refine ⟨vision_call_go_count env 3 0, fun h0 h1 => ?_, fun h0 h1 h2 => ?_,
    fun status bt bj hs => ?_⟩
  · unfold vision_call vision_call_go
    simp [h0, h1, vision_call_go]
  · rcases isHttpFailure_cases _ h0 with e0 | ⟨s0, b0, e0⟩ <;>
      rcases isHttpFailure_cases _ h1 with e1 | ⟨s1, b1, e1⟩ <;>
      rcases isHttpFailure_cases _ h2 with e2 | ⟨s2, b2, e2⟩ <;>
      simp [vision_call, vision_call_go, e0, e1, e2]
  · simp [call_openai_vision, hs]

/-- Environment whose first attempt is an HTTP 500 and whose later attempts
succeed. -/
def c4_env_500 : ℕ → AttemptOutcome :=
  fun i => if i = 0 then .httpError 500 "internal error" else .success (.obj [])

/-- Environment in which every attempt is rate-limited. -/
def c4_env_429 : ℕ → AttemptOutcome := fun _ => .rateLimited

/-- Counterexample to claim C4 as stated: after a non-429 HTTP error (500) the
client does *not* fail immediately — it performs a second attempt and returns
its result — and when the retry budget is exhausted by 429s it returns `None`
rather than raising an error carrying the status and body. -/
theorem vision_retry_counterexample :
    vision_call c4_env_500 = (.ok (.obj []), 2) ∧
      vision_call c4_env_429 = (.returnedNone, 3) :=
  ⟨rfl, rfl⟩

/-- Environment whose first attempt is rate-limited and whose second attempt
succeeds. -/
def c4_witness_env : ℕ → AttemptOutcome :=
  fun i => if i = 0 then .rateLimited else .success (.obj [])

/-- Witness for `vision_retry_amended`: a 429 followed by a success yields the
success on the second attempt, and the single-shot client turns a 404 into an
error message carrying status and body. -/
theorem vision_retry_amended_witness :
    vision_call c4_witness_env = (.ok (.obj []), 2) ∧
      call_openai_vision 404 "not found" .null = .error "OpenAI API error 404: not found" :=
  ⟨(vision_retry_amended c4_witness_env (.obj [])).2.1 rfl rfl,
    (vision_retry_amended c4_witness_env (.obj [])).2.2.2 404 "not found" .null (by decide)⟩

/-- Claim C5, amended.  When the model returns the literal prose
`"I cannot analyze this image."` (no JSON object anywhere), the pipeline does
fall back to a `MOCK` draft, but its `condition_details` is the fixed generic
note `"OpenAI nicht erreichbar. Demo-Daten generiert."` used for *every*
live-path failure — there is no unparsable-response-specific diagnostic. -/
theorem unparsable_fallback_generic_note :
    (analyze_product_image (some "sk-test") [7] (some "photo.jpg") (.ok c5_response)).source =
        "mock" ∧
      (analyze_product_image (some "sk-test") [7] (some "photo.jpg")
            (.ok c5_response)).condition_details =
        "OpenAI nicht erreichbar. Demo-Daten generiert." :=
  ⟨by decide, by decide⟩

/-- Counterexample to claim C5 as stated: on the unparsable response the
fallback note is exactly the note produced for an upstream call failure, so it
does not identify *why* the fallback was triggered. -/
theorem unparsable_note_not_specific :
    (analyze_product_image (some "sk-test") [7] (some "photo.jpg") (.ok c5_response)).source =
        "mock" ∧
      (analyze_product_image (some "sk-test") [7] (some "photo.jpg")
            (.ok c5_response)).condition_details =
        "OpenAI nicht erreichbar. Demo-Daten generiert." ∧
      (analyze_product_image (some "sk-test") [7] (some "photo.jpg")
            (.ok c5_response)).condition_details =
        (analyze_product_image (some "sk-test") [7] (some "photo.jpg")
            CallOutcome.failed).condition_details :=
  ⟨by decide, by decide, by decide⟩

/-- Claim C6.  With no credentials configured (absent or empty key), two runs
of the draft pipeline with the same `context_hint` produce drafts with the
same `product.name` (whatever the image bytes or would-be call outcomes are),
with `source = "mock"` and `confidence_score = 0.4`; the name is exactly the
deterministic filename derivation (extension stripped, underscores replaced
by spaces, stripped, defaulting to `"Produkt"`). -/
theorem no_credentials_deterministic_mock (k1 k2 : Option String) (f : Option String)
    (img1 img2 : List ℕ) (o1 o2 : CallOutcome)
    (h1 : key_present k1 = false) (h2 : key_present k2 = false) :
    (analyze_product_image k1 img1 f o1).product.name =
        (analyze_product_image k2 img2 f o2).product.name ∧
      (analyze_product_image k1 img1 f o1).source = "mock" ∧
      (analyze_product_image k1 img1 f o1).confidence_score = 2 / 5 ∧
      (analyze_product_image k1 img1 f o1).product.name = mock_product_name f := by
  have e1 : analyze_product_image k1 img1 f o1 =
      mock_result f "Demo-Modus aktiv (kein OPENAI_API_KEY)." := by
    unfold analyze_product_image
    rw [h1]
    simp
  have e2 : analyze_product_image k2 img2 f o2 =
      mock_result f "Demo-Modus aktiv (kein OPENAI_API_KEY)." := by
    unfold analyze_product_image
    rw [h2]
    simp
  rw [e1, e2]
  exact ⟨rfl, rfl, rfl, rfl⟩

/-- Witness for `no_credentials_deterministic_mock` at an absent key, an empty
key, and the filename `vintage_camera_lens.jpg`. -/
theorem no_credentials_deterministic_mock_witness :
    (analyze_product_image none [] (some "vintage_camera_lens.jpg") .failed).product.name =
        (analyze_product_image (some "") [] (some "vintage_camera_lens.jpg") .failed).product.name ∧
      (analyze_product_image none [] (some "vintage_camera_lens.jpg") .failed).source = "mock" ∧
      (analyze_product_image none [] (some "vintage_camera_lens.jpg") .failed).confidence_score =
        2 / 5 ∧
      (analyze_product_image none [] (some "vintage_camera_lens.jpg") .failed).product.name =
        mock_product_name (some "vintage_camera_lens.jpg") :=
  no_credentials_deterministic_mock none (some "") (some "vintage_camera_lens.jpg") [] []
    .failed .failed (by decide) (by decide)

/-- Claim C7.  On the payload `estimated_value_eur = "15-25"` the coerced
draft has `estimated_value_range = (1500, 2500)` in minor units. -/
theorem range_as_string_coercion :
    (build_result c7_data "openai").map (fun d => d.estimated_value_range) =
      some (1500, 2500) := by
  decide

/-- Claim C8.  Every draft the pipeline produces — through the live coercion
path or the fallback — has a `listing_title` of at most 80 characters; both
constructors hard-truncate with `[:80]`. -/
theorem listing_title_length_bound (api_key : Option String) (img : List ℕ)
    (f : Option String) (o : CallOutcome) :
    (analyze_product_image api_key img f o).listing_title.length ≤ 80 := by
  rcases analyze_result_cases api_key img f o with ⟨note, hm⟩ | ⟨data, d, hb, he⟩
  · rw [hm]
    exact mock_result_title_le f note
  · rw [he]
    exact build_result_title data "openai" d hb

/-- Claim C9, amended.  Fallback drafts always have
`confidence_score = 0.4 ∈ [0, 1]`, but live drafts carry
`float(confidence_score or 0.6)` with *no clamping*: the draft's confidence is
exactly the value the coercion computes from the payload, so an out-of-range
model value yields an out-of-range score (see `confidence_out_of_range`). -/
theorem confidence_passthrough (f : Option String) (note : String)
    (data : JsonVal) (src : String) :
    (mock_result f note).confidence_score = 2 / 5 ∧
      (0 ≤ (mock_result f note).confidence_score ∧ (mock_result f note).confidence_score ≤ 1) ∧
      (build_result data src).map (fun d => d.confidence_score) = confidence_of data := by
  refine ⟨rfl, ⟨?_, ?_⟩, build_result_confidence data src⟩
  · rw [mock_result_confidence]
    norm_num
  · rw [mock_result_confidence]
    norm_num

/-- Counterexample to claim C9 as stated: a model `confidence_score` of 5 is
stored unchanged in the coerced draft, and 5 is not in `[0, 1]`. -/
theorem confidence_out_of_range :
    (build_result c9_data "openai").map (fun d => d.confidence_score) = some 5 ∧
      ¬ ((5 : ℚ) ≤ 1) :=
  ⟨by decide, by norm_num⟩

/-- Claim C10, amended.  A plain-number or hyphen-free-string
`estimated_value_eur` yields a degenerate range with both bounds equal to
`int(float(value))` — truncation toward zero, not the raw value — times 100,
subject to the positive-lower-bound clamp: positive truncations give
`(trunc(v)·100, trunc(v)·100)`, non-positive ones give `(2000, 2000)`. -/
theorem scalar_range_degenerate (q : ℚ) (s : String) :
    ((build_result (.obj [("estimated_value_eur", .num q)]) "openai").map
        (fun d => d.estimated_value_range) =
      some (minor_units (clamp_range (ratTrunc q, ratTrunc q)))) ∧
    (pyContains s '-' = false →
      (build_result (.obj [("estimated_value_eur", .str s)]) "openai").map
          (fun d => d.estimated_value_range) =
        some (minor_units (clamp_range (to_int (.str s) 0, to_int (.str s) 0)))) ∧
    (clamp_range (ratTrunc q, ratTrunc q)).1 = (clamp_range (ratTrunc q, ratTrunc q)).2 ∧
    (0 < ratTrunc q → clamp_range (ratTrunc q, ratTrunc q) = (ratTrunc q, ratTrunc q)) ∧
    (ratTrunc q ≤ 0 → clamp_range (ratTrunc q, ratTrunc q) = (20, 20)) := by
  refine ⟨?_, fun hs => ?_, ?_, fun h => ?_, fun h => ?_⟩
  · rw [build_result]
    simp [confidence_value, dict_get, jlookup, truthy, value_range, value_range_raw,
      to_int, pyFloat, minor_units]
  · rw [build_result]
    simp [confidence_value, dict_get, jlookup, truthy, value_range, value_range_raw,
      hs, minor_units]
  · unfold clamp_range
    dsimp only
    split_ifs <;> omega
  · unfold clamp_range
    dsimp only
    rw [if_neg (by omega), if_neg (by omega)]
  · unfold clamp_range
    dsimp only
    rw [if_pos h, if_pos (by omega)]

/-- Witness for `scalar_range_degenerate` at the value 30 (as a number and as
the string "30"), as in the claim's example. -/
theorem scalar_range_degenerate_witness :
    pyContains "30" '-' = false ∧ 0 < ratTrunc (30 : ℚ) ∧
      ((build_result (.obj [("estimated_value_eur", .str "30")]) "openai").map
          (fun d => d.estimated_value_range) =
        some (minor_units (clamp_range (to_int (.str "30") 0, to_int (.str "30") 0)))) ∧
      clamp_range (ratTrunc (30 : ℚ), ratTrunc (30 : ℚ)) =
        (ratTrunc (30 : ℚ), ratTrunc (30 : ℚ)) :=
  ⟨by decide, by decide, (scalar_range_degenerate 30 "30").2.1 (by decide),
    (scalar_range_degenerate 30 "30").2.2.2.1 (by decide)⟩

/-- Counterexample to the implicit reading of claim C10 in which the bounds
equal the raw value times 100: an `estimated_value_eur` of 30.5 yields the
range `(3000, 3000)`, not `30.5 × 100 = 3050` in each bound. -/
theorem scalar_range_truncation_counterexample :
    (build_result (.obj [("estimated_value_eur", .num (61 / 2))]) "openai").map
        (fun d => d.estimated_value_range) = some (3000, 3000) ∧
      (61 / 2 : ℚ) * 100 = 3050 ∧ ((3000 : ℤ) ≠ 3050) :=
  ⟨by decide, by norm_num, by decide⟩
